import Mathlib

/-!
Verification development for the Steel Voyager MCP server (src/index.ts).

The TypeScript program is a browser-automation tool server built around a
single `SteelSessionManager` instance plus a tool dispatcher
(`handleToolCall`).  We embed it shallowly:

* `MgrState` mirrors the manager's four mutable fields
  (`sessionId`, `browser`, `page`, `isInitialized`); an extra `createCount`
  field is pure instrumentation used to index the environment's answers to
  successive session-creation requests (the remote service may answer each
  `POST /v1/sessions` differently).
* `Env` packages the results of every external call the program makes
  (Steel API, puppeteer connect, page operations).  `Browser` and `Page`
  handles are opaque `Nat` identifiers.
* Each `async` method becomes a pure function from state and environment to
  `Except JsError` results; exceptions propagate exactly where the source
  has no surrounding `try`/`catch`.  Because thrown JS exceptions do not
  roll back field assignments, every function also returns the (possibly
  mutated) state on the error path.
* An `Eff` trace records the external calls performed, so that statements
  such as "the old session is released" or "no delay is invoked" are
  expressible.  On paths that end in a propagated exception the trace up to
  the throwing call is kept.
-/

/-- Session status as reported by the Steel API (`live | released | failed`). -/
inductive SessionStatus
  | live
  | released
  | failed
deriving DecidableEq, Repr

/-- A thrown JavaScript error: message and stack text. -/
structure JsError where
  message : String
  stack : String
deriving DecidableEq, Repr

/-- Response body of `POST /v1/sessions` as used by `createSteelSession`. -/
structure SessionInfo where
  id : String
  websocketUrl : String
  status : SessionStatus
deriving DecidableEq, Repr

/-- Observable external calls made by the program (instrumentation trace). -/
inductive Eff
  | createSession
  | connect (endpoint : String)
  | release (sid : String)
  | closeBrowser (b : Nat)
  | retrieve (sid : String)
  | evalOnNewDoc (p : Nat)
  | evalMarkPage (p : Nat)
  | setViewport (p : Nat)
  | attachConsole (p : Nat)
  | goto (p : Nat) (url : String)
  | waitForSelector (p : Nat) (sel : String)
  | click (p : Nat) (sel : String)
  | setValue (p : Nat) (sel : String) (val : String)
  | appendValue (p : Nat) (sel : String) (val : String)
  | scrollBy (p : Nat) (dy : Int)
  | pressKey (p : Nat) (k : String)
  | goBack (p : Nat)
  | evalUnmark (p : Nat)
  | screenshot (p : Nat)
  | saveScreenshot (name : String)
  | sleep (ms : Rat)
deriving DecidableEq, Repr

/-- Environment-derived configuration (STEEL_LOCAL, STEEL_API_KEY,
STEEL_BASE_URL, GLOBAL_WAIT_SECONDS). -/
structure Config where
  steelLocal : Bool
  steelKey : Option String
  steelBaseURL : String
  globalWaitSeconds : Rat

/-- Results of all external calls.  Functions of the call's arguments (and,
for session creation, of how many creations happened before, since the
remote service mints a fresh session per request). -/
structure Env where
  createResult : Nat → Except JsError SessionInfo
  connectResult : String → Except JsError Nat
  pagesOf : Nat → List Nat
  retrieveResult : String → Except JsError SessionStatus
  releaseResult : String → Except JsError Unit
  closeResult : Nat → Except JsError Unit
  evalOnNewDoc : Nat → Except JsError Unit
  evalMarkPage : Nat → Except JsError Unit
  setViewport : Nat → Except JsError Unit
  goto : Nat → String → Except JsError Unit
  waitForSelector : Nat → String → Except JsError Unit
  anchorTargetBlank : Nat → String → Except JsError (Option String)
  clickSel : Nat → String → Except JsError Unit
  setValue : Nat → String → String → Except JsError Unit
  appendValue : Nat → String → String → Except JsError Unit
  scrollByPixels : Nat → Int → Except JsError Unit
  pressKey : Nat → String → Except JsError Unit
  goBackResult : Nat → Except JsError Bool
  evalUnmark : Nat → Except JsError Unit
  screenshotResult : Nat → Except JsError String
  now : Nat

/-- The manager's mutable fields (`sessionId`, `browser`, `page`,
`isInitialized`), plus the `createCount` instrumentation counter. -/
structure MgrState where
  sessionId : Option String
  browser : Option Nat
  page : Option Nat
  isInitialized : Bool
  createCount : Nat
deriving DecidableEq, Repr

/-- Result of a manager method: value or thrown error, the state after the
call (mutations are not rolled back on throw), and the effect trace. -/
abbrev MResult (α : Type) := Except JsError α × MgrState × List Eff

/-- The manager's fields at process start. -/
def freshState : MgrState := ⟨none, none, none, false, 0⟩

/-- JavaScript `String.prototype.startsWith` (code-unit prefix test). -/
def jsStartsWith (s pre : String) : Bool :=
  pre.toList.isPrefixOf s.toList

/-- JavaScript `String.prototype.toLowerCase` (ASCII-relevant part). -/
def jsToLower (s : String) : String :=
  ⟨s.toList.map Char.toLower⟩

/-- Index of the first occurrence of `pat` in `s`, if any. -/
def firstOccurrence (pat : List Char) : List Char → Option Nat
  | [] => if pat.isPrefixOf ([] : List Char) then some 0 else none
  | c :: t =>
    if pat.isPrefixOf (c :: t) then some 0
    else (firstOccurrence pat t).map (fun i => i + 1)

/-- JavaScript `String.prototype.replace` with a string pattern: replaces
only the first occurrence (the replacement here contains no `$` patterns). -/
def jsReplaceFirst (s pat rep : String) : String :=
  match firstOccurrence pat.toList s.toList with
  | none => s
  | some i => ⟨s.toList.take i ++ rep.toList ++ s.toList.drop (i + pat.toList.length)⟩

/-- WebSocket endpoint derivation of `createNewSession` (index.ts lines
312-336): local mode rewrites the base URL's scheme and appends the session
id; cloud mode targets `wss://connect.steel.dev` with session id and, when
the key is truthy, the API key. -/
def wsEndpoint (cfg : Config) (sid : String) : Except JsError String :=
  if cfg.steelLocal then
    let lower := jsToLower cfg.steelBaseURL
    if jsStartsWith lower "http://" then
      .ok (jsReplaceFirst cfg.steelBaseURL "http://" "ws://" ++ "/?sessionId=" ++ sid)
    else if jsStartsWith lower "https://" then
      .ok (jsReplaceFirst cfg.steelBaseURL "https://" "wss://" ++ "/?sessionId=" ++ sid)
    else
      .error ⟨"Invalid Steel base URL", ""⟩
  else
    .ok ("wss://connect.steel.dev?sessionId=" ++ sid ++
      (match cfg.steelKey with
       | some k => if k = "" then "" else "&apiKey=" ++ k
       | none => ""))

/-- Embeds `SteelSessionManager.cleanup` (lines 403-425).  The release call
happens exactly when not in local mode and a session id is tracked; its
outcome (`env.releaseResult`) is discarded because the surrounding `catch`
only logs a failure, and likewise `browser.close()` failures are swallowed
by `.catch`, so the continuation is identical on both outcomes and the
model does not consult them.  All four fields are then reset.  `cleanup`
itself never throws. -/
def cleanupRun (cfg : Config) (_env : Env) (st : MgrState) : MgrState × List Eff :=
  let releaseTr : List Eff :=
    match cfg.steelLocal, st.sessionId with
    | false, some sid => [Eff.release sid]
    | _, _ => []
  let closeTr : List Eff :=
    match st.browser with
    | some b => [Eff.closeBrowser b]
    | none => []
  (⟨none, none, none, false, st.createCount⟩, releaseTr ++ closeTr)

/-- Embeds `createSteelSession` (lines 210-247): one `POST /v1/sessions`
request; a failed response is logged and rethrown. -/
def createSteelSession (env : Env) (st : MgrState) : MResult SessionInfo :=
  match env.createResult st.createCount with
  | .ok info => (.ok info, {st with createCount := st.createCount + 1}, [Eff.createSession])
  | .error e => (.error e, {st with createCount := st.createCount + 1}, [Eff.createSession])

/-- Embeds `injectMarkPageScript` (lines 347-354): no-op when no page is
tracked; otherwise `evaluateOnNewDocument(markPageScript)` followed by
`evaluate(markPageScript; markPage())`. -/
def injectMarkPageScript (env : Env) (page : Option Nat) : Except JsError Unit × List Eff :=
  match page with
  | none => (.ok (), [])
  | some p =>
    match env.evalOnNewDoc p with
    | .error e => (.error e, [Eff.evalOnNewDoc p])
    | .ok _ =>
      match env.evalMarkPage p with
      | .error e => (.error e, [Eff.evalOnNewDoc p, Eff.evalMarkPage p])
      | .ok _ => (.ok (), [Eff.evalOnNewDoc p, Eff.evalMarkPage p])

/-- Embeds `setupPage` (lines 359-374): script injection, default viewport,
console listener registration; no-op when no page is tracked. -/
def setupPage (env : Env) (st : MgrState) : Except JsError Unit × List Eff :=
  match st.page with
  | none => (.ok (), [])
  | some p =>
    match injectMarkPageScript env (some p) with
    | (.error e, tr) => (.error e, tr)
    | (.ok _, tr) =>
      match env.setViewport p with
      | .error e => (.error e, tr ++ [Eff.setViewport p])
      | .ok _ => (.ok (), tr ++ [Eff.setViewport p, Eff.attachConsole p])

/-- Embeds `createNewSession` (lines 286-342): cleanup only if a browser is
present; create the Steel session and record its id; derive the WebSocket
endpoint; connect; take the first open page; set it up.  Any failure
propagates, with the field mutations made so far kept. -/
def createNewSession (cfg : Config) (env : Env) (st : MgrState) : MResult Unit :=
  let pre : MgrState × List Eff :=
    match st.browser with
    | some _ => cleanupRun cfg env st
    | none => (st, [])
  match createSteelSession env pre.1 with
  | (.error e, st2, tr2) => (.error e, st2, pre.2 ++ tr2)
  | (.ok info, st2, tr2) =>
    let st3 := {st2 with sessionId := some info.id}
    match wsEndpoint cfg info.id with
    | .error e => (.error e, st3, pre.2 ++ tr2)
    | .ok ep =>
      match env.connectResult ep with
      | .error e => (.error e, st3, pre.2 ++ tr2 ++ [Eff.connect ep])
      | .ok b =>
        let st4 := {st3 with browser := some b, page := (env.pagesOf b).head?}
        match setupPage env st4 with
        | (.error e, tr5) => (.error e, st4, pre.2 ++ tr2 ++ [Eff.connect ep] ++ tr5)
        | (.ok _, tr5) => (.ok (), st4, pre.2 ++ tr2 ++ [Eff.connect ep] ++ tr5)

/-- Embeds `initialize` (lines 252-270, source name `initialize`): returns
the stored page immediately when already initialized; otherwise creates a
session, marks the manager initialized, and returns the page (`this.page!`,
which is `none` only in degenerate states). -/
def initializeSession (cfg : Config) (env : Env) (st : MgrState) : MResult (Option Nat) :=
  if st.isInitialized then (.ok st.page, st, [])
  else
    match createNewSession cfg env st with
    | (.ok _, st1, tr1) => (.ok st1.page, {st1 with isInitialized := true}, tr1)
    | (.error e, st1, tr1) => (.error e, st1, tr1)

/-- Embeds `ensureSession` (lines 275-280): initialize when no session id is
tracked, else return the stored page without any remote interaction. -/
def ensureSession (cfg : Config) (env : Env) (st : MgrState) : MResult (Option Nat) :=
  match st.sessionId with
  | none => initializeSession cfg env st
  | some _ => (.ok st.page, st, [])

/-- Embeds `handleError` (lines 380-397).  With no tracked session it
returns `false`.  Otherwise it retrieves the session's status: not live
triggers recreation and `true`; a live status yields `false`; a failed
retrieval (or a throw out of the first recreation) falls into the `catch`,
which recreates and returns `true`; a throw out of that recreation
propagates. -/
def handleError (cfg : Config) (env : Env) (st : MgrState) (_e : JsError) : MResult Bool :=
  match st.sessionId with
  | none => (.ok false, st, [])
  | some sid =>
    match env.retrieveResult sid with
    | .ok status =>
      if status ≠ SessionStatus.live then
        match createNewSession cfg env st with
        | (.ok _, st2, tr2) => (.ok true, st2, Eff.retrieve sid :: tr2)
        | (.error _, st2, tr2) =>
          match createNewSession cfg env st2 with
          | (.ok _, st3, tr3) => (.ok true, st3, Eff.retrieve sid :: (tr2 ++ tr3))
          | (.error e3, st3, tr3) => (.error e3, st3, Eff.retrieve sid :: (tr2 ++ tr3))
      else (.ok false, st, [Eff.retrieve sid])
    | .error _ =>
      match createNewSession cfg env st with
      | (.ok _, st2, tr2) => (.ok true, st2, Eff.retrieve sid :: tr2)
      | (.error e2, st2, tr2) => (.error e2, st2, Eff.retrieve sid :: tr2)

/-- The `e` argument of `handleError` is never inspected by the source
(the decision is based purely on the retrieved status), reflected above. -/
def handleErrorIgnoresErr : Prop :=
  ∀ cfg env st e1 e2, handleError cfg env st e1 = handleError cfg env st e2

/-- An item of a tool result's `content` array. -/
inductive ContentItem
  | text (s : String)
  | image (data : String) (mimeType : String)
deriving DecidableEq, Repr

/-- `CallToolResult` as constructed by the handlers. -/
structure CallToolResult where
  isError : Bool
  content : List ContentItem
deriving DecidableEq, Repr

/-- Error result with a single text item, the handlers' only error shape. -/
def errText (s : String) : CallToolResult := ⟨true, [ContentItem.text s]⟩

/-- Success result with a single text item, the handlers' only success shape. -/
def okText (s : String) : CallToolResult := ⟨false, [ContentItem.text s]⟩

/-- Tool-call arguments; absent JSON fields are `none`. -/
structure Args where
  url : Option String := none
  query : Option String := none
  label : Option Int := none
  text : Option String := none
  replaceText : Option Bool := none
  pixels : Option Int := none
  seconds : Option Rat := none
  resourceName : Option String := none

/-- JavaScript falsiness of an optional string (`undefined` or `""`). -/
def optStrFalsy : Option String → Bool
  | none => true
  | some s => s = ""

/-- JavaScript falsiness of an optional number (`undefined` or `0`). -/
def optIntFalsy : Option Int → Bool
  | none => true
  | some n => n = 0

/-- Result of a tool handler: value or thrown error, plus effect trace. -/
abbrev HResult := Except JsError CallToolResult × List Eff

/-- A thrown `TypeError` from calling a method on a `null` page. -/
def nullPageError : JsError := ⟨"TypeError: Cannot read properties of null", ""⟩

/-- Embeds `handleNavigate` (lines 602-620): falsy `url` is a validation
error; a `url` starting with neither `http://` nor `https://` is prefixed
with `https://`; then `page.goto` runs (throws propagate). -/
def handleNavigate (env : Env) (page : Option Nat) (args : Args) : HResult :=
  if optStrFalsy args.url then
    (.ok (errText "URL parameter is required for navigation"), [])
  else
    let u := args.url.getD ""
    let u2 := if !(jsStartsWith u "http://") && !(jsStartsWith u "https://")
              then "https://" ++ u else u
    match page with
    | none => (.error nullPageError, [])
    | some p =>
      match env.goto p u2 with
      | .ok _ => (.ok (okText ("Navigated to " ++ u2)), [Eff.goto p u2])
      | .error e => (.error e, [Eff.goto p u2])

/-- Characters `encodeURIComponent` leaves as-is. -/
def isURIUnreserved (c : Char) : Bool :=
  c.isAlphanum || c = '-' || c = '_' || c = '.' || c = '!' ||
  c = '~' || c = '*' || c = '\'' || c = '(' || c = ')'

/-- Uppercase hex digit for a value below 16. -/
def hexDigit (n : Nat) : Char :=
  (("0123456789ABCDEF".toList).getD n 'X')

/-- Percent-encoding of one byte. -/
def percentByte (b : UInt8) : List Char :=
  ['%', hexDigit (b.toNat / 16), hexDigit (b.toNat % 16)]

/-- JavaScript `encodeURIComponent`: unreserved characters kept, all others
percent-encoded as UTF-8 byte sequences. -/
def encodeURIComponentStr (s : String) : String :=
  ⟨s.toList.flatMap (fun c =>
    if isURIUnreserved c then [c]
    else ((String.singleton c).toUTF8.toList).flatMap percentByte)⟩

/-- Embeds `handleSearch` (lines 625-642). -/
def handleSearch (env : Env) (page : Option Nat) (args : Args) : HResult :=
  if optStrFalsy args.query then
    (.ok (errText "Query parameter is required for search"), [])
  else
    let q := args.query.getD ""
    let u := "https://www.google.com/search?q=" ++ encodeURIComponentStr q
    match page with
    | none => (.error nullPageError, [])
    | some p =>
      match env.goto p u with
      | .ok _ => (.ok (okText ("Searched Google for \"" ++ q ++ "\"")), [Eff.goto p u])
      | .error e => (.error e, [Eff.goto p u])

/-- Attribute selector targeted by `click`/`type` for a numeric label. -/
def labelSelector (label : Int) : String :=
  "[data-label=\"" ++ toString label ++ "\"]"

/-- Error text of `handleClick`'s catch-all branch. -/
def clickCatchText (label : Int) (e : JsError) : String :=
  "Could not find clickable element with label " ++ toString label ++
  ". Error: " ++ e.message

/-- Embeds `handleClick` (lines 647-704): a falsy `label` (absent or `0`) is
a validation error; otherwise everything runs inside `try`, whose `catch`
converts any throw (including a null page) into an error result; an anchor
with `target="_blank"` is navigated to instead of clicked. -/
def handleClick (env : Env) (page : Option Nat) (args : Args) : HResult :=
  if optIntFalsy args.label then
    (.ok (errText "Label parameter is required for clicking elements"), [])
  else
    let label := args.label.getD 0
    let sel := labelSelector label
    match page with
    | none => (.ok (errText (clickCatchText label nullPageError)), [])
    | some p =>
      match env.waitForSelector p sel with
      | .error e => (.ok (errText (clickCatchText label e)), [Eff.waitForSelector p sel])
      | .ok _ =>
        match env.anchorTargetBlank p sel with
        | .error e => (.ok (errText (clickCatchText label e)), [Eff.waitForSelector p sel])
        | .ok (some href) =>
          match env.goto p href with
          | .error e =>
            (.ok (errText (clickCatchText label e)), [Eff.waitForSelector p sel, Eff.goto p href])
          | .ok _ =>
            (.ok (okText ("Clicked element with label " ++ toString label ++ ".")),
             [Eff.waitForSelector p sel, Eff.goto p href])
        | .ok none =>
          match env.clickSel p sel with
          | .error e =>
            (.ok (errText (clickCatchText label e)), [Eff.waitForSelector p sel, Eff.click p sel])
          | .ok _ =>
            (.ok (okText ("Clicked element with label " ++ toString label ++ ".")),
             [Eff.waitForSelector p sel, Eff.click p sel])

/-- Embeds `handleType` (lines 709-776): falsy `label` or `text` is a
validation error; only `waitForSelector` is guarded by `try`/`catch`; the
`$eval` that sets or appends the value may throw and then propagates. -/
def handleType (env : Env) (page : Option Nat) (args : Args) : HResult :=
  if optIntFalsy args.label || optStrFalsy args.text then
    (.ok (errText "Both label and text parameters are required for typing"), [])
  else
    let label := args.label.getD 0
    let text := args.text.getD ""
    let sel := labelSelector label
    match page with
    | none =>
      (.ok (errText ("Could not find input element with label " ++ toString label ++ ".")), [])
    | some p =>
      match env.waitForSelector p sel with
      | .error _ =>
        (.ok (errText ("Could not find input element with label " ++ toString label ++ ".")),
         [Eff.waitForSelector p sel])
      | .ok _ =>
        if args.replaceText.getD false then
          match env.setValue p sel text with
          | .error e => (.error e, [Eff.waitForSelector p sel, Eff.setValue p sel text])
          | .ok _ =>
            (.ok (okText ("Typed '" ++ text ++ "' into label " ++ toString label ++ ".")),
             [Eff.waitForSelector p sel, Eff.setValue p sel text])
        else
          match env.appendValue p sel text with
          | .error e => (.error e, [Eff.waitForSelector p sel, Eff.appendValue p sel text])
          | .ok _ =>
            (.ok (okText ("Typed '" ++ text ++ "' into label " ++ toString label ++ ".")),
             [Eff.waitForSelector p sel, Eff.appendValue p sel text])

/-- Embeds `handleScrollDown` (lines 781-800). -/
def handleScrollDown (env : Env) (page : Option Nat) (args : Args) : HResult :=
  match args.pixels with
  | some px =>
    match page with
    | none => (.error nullPageError, [])
    | some p =>
      match env.scrollByPixels p px with
      | .error e => (.error e, [Eff.scrollBy p px])
      | .ok _ => (.ok (okText ("Scrolled down by " ++ toString px)), [Eff.scrollBy p px])
  | none =>
    match page with
    | none => (.error nullPageError, [])
    | some p =>
      match env.pressKey p "PageDown" with
      | .error e => (.error e, [Eff.pressKey p "PageDown"])
      | .ok _ => (.ok (okText "Scrolled down by one page"), [Eff.pressKey p "PageDown"])

/-- Embeds `handleScrollUp` (lines 805-819). -/
def handleScrollUp (env : Env) (page : Option Nat) (args : Args) : HResult :=
  match args.pixels with
  | some px =>
    match page with
    | none => (.error nullPageError, [])
    | some p =>
      match env.scrollByPixels p (-px) with
      | .error e => (.error e, [Eff.scrollBy p (-px)])
      | .ok _ => (.ok (okText ("Scrolled up by " ++ toString px)), [Eff.scrollBy p (-px)])
  | none =>
    match page with
    | none => (.error nullPageError, [])
    | some p =>
      match env.pressKey p "PageUp" with
      | .error e => (.error e, [Eff.pressKey p "PageUp"])
      | .ok _ => (.ok (okText "Scrolled up by one page"), [Eff.pressKey p "PageUp"])

/-- Embeds `handleGoBack` (lines 824-842): a `null` response from
`page.goBack` means no history entry and becomes an error result. -/
def handleGoBack (env : Env) (page : Option Nat) : HResult :=
  match page with
  | none => (.error nullPageError, [])
  | some p =>
    match env.goBackResult p with
    | .error e => (.error e, [Eff.goBack p])
    | .ok false =>
      (.ok (errText "Cannot go back. No previous page in the browser history."), [Eff.goBack p])
    | .ok true => (.ok (okText "Went back to the previous page."), [Eff.goBack p])

/-- Validation message of the `wait` tool. -/
def waitRangeMsg : String := "Wait time must be a number between 0 and 10 seconds"

/-- Embeds `handleWait` (lines 847-866): `seconds` must be a number in
`[0, 10]`, otherwise an error result is returned before any delay; in range
the handler sleeps `seconds * 1000` milliseconds.  The page is unused. -/
def handleWait (_env : Env) (_page : Option Nat) (args : Args) : HResult :=
  match args.seconds with
  | none => (.ok (errText waitRangeMsg), [])
  | some s =>
    if s < 0 || 10 < s then (.ok (errText waitRangeMsg), [])
    else (.ok (okText ("Waited " ++ toString s ++ " second(s).")), [Eff.sleep (s * 1000)])

/-- Embeds `handleSaveUnmarkedScreenshot` (lines 871-899): a falsy
`resourceName` is generated from the clock; the page is unmarked,
screenshotted, and the bytes stored under the name. -/
def handleSaveUnmarkedScreenshot (env : Env) (page : Option Nat) (args : Args) : HResult :=
  let name :=
    if optStrFalsy args.resourceName then "unmarked_screenshot_" ++ toString env.now
    else args.resourceName.getD ""
  match page with
  | none => (.error nullPageError, [])
  | some p =>
    match env.evalUnmark p with
    | .error e => (.error e, [Eff.evalUnmark p])
    | .ok _ =>
      match env.screenshotResult p with
      | .error e => (.error e, [Eff.evalUnmark p, Eff.screenshot p])
      | .ok _ =>
        (.ok (okText ("Unmarked screenshot saved as resource screenshot://" ++ name)),
         [Eff.evalUnmark p, Eff.screenshot p, Eff.saveScreenshot name])

/-- Registered tool names, in declaration order (lines 455-597). -/
def toolNames : List String :=
  ["navigate", "search", "click", "type", "scroll_down", "scroll_up",
   "go_back", "wait", "save_unmarked_screenshot"]

/-- The `switch` of `handleToolCall` (lines 915-956) routing a tool name to
its handler; unknown names give an error result listing the tools. -/
def dispatchHandler (env : Env) (name : String) (page : Option Nat) (args : Args) : HResult :=
  if name = "navigate" then handleNavigate env page args
  else if name = "search" then handleSearch env page args
  else if name = "click" then handleClick env page args
  else if name = "type" then handleType env page args
  else if name = "scroll_down" then handleScrollDown env page args
  else if name = "scroll_up" then handleScrollUp env page args
  else if name = "go_back" then handleGoBack env page
  else if name = "wait" then handleWait env page args
  else if name = "save_unmarked_screenshot" then handleSaveUnmarkedScreenshot env page args
  else
    (.ok (errText ("Unknown tool: " ++ name ++ ". Available tools are: " ++
      String.intercalate ", " toolNames ++ ".")), [])

/-- Retry advice returned when `handleError` recreated the session. -/
def retryResult : CallToolResult :=
  ⟨true, [ContentItem.text
    "Browser session ended unexpectedly. A new session has been created. Please retry your request."]⟩

/-- Error result surfacing the original failure verbatim. -/
def toolFailedResult (name : String) (e : JsError) : CallToolResult :=
  ⟨true, [ContentItem.text
    ("Tool " ++ name ++ " failed: " ++ e.message ++ "\nStack trace: " ++ e.stack)]⟩

/-- The `catch` block of `handleToolCall` (lines 986-1016): classify via
`handleError`; `true` yields the retry advice, `false` surfaces the
original error; a throw out of `handleError` itself propagates. -/
def runCatch (cfg : Config) (env : Env) (st : MgrState) (name : String) (e : JsError)
    (tr : List Eff) : MResult CallToolResult :=
  match handleError cfg env st e with
  | (.ok true, st2, tr2) => (.ok retryResult, st2, tr ++ tr2)
  | (.ok false, st2, tr2) => (.ok (toolFailedResult name e), st2, tr ++ tr2)
  | (.error e2, st2, tr2) => (.error e2, st2, tr ++ tr2)

/-- Embeds `handleToolCall` (lines 904-1017): acquire a page via
`ensureSession`, run the named handler, return error results unchanged; on
success optionally sleep the global wait, re-inject the marking script,
capture a screenshot and append it as an image item.  Any throw in the
envelope goes to the `catch`. -/
def handleToolCall (cfg : Config) (env : Env) (st : MgrState) (name : String)
    (args : Args) : MResult CallToolResult :=
  match ensureSession cfg env st with
  | (.error e, st1, tr1) => runCatch cfg env st1 name e tr1
  | (.ok page, st1, tr1) =>
    match dispatchHandler env name page args with
    | (.error e, tr2) => runCatch cfg env st1 name e (tr1 ++ tr2)
    | (.ok result, tr2) =>
      if result.isError then (.ok result, st1, tr1 ++ tr2)
      else
        let tr3 := if 0 < cfg.globalWaitSeconds
                   then [Eff.sleep (cfg.globalWaitSeconds * 1000)] else []
        match injectMarkPageScript env st1.page with
        | (.error e, tr4) => runCatch cfg env st1 name e (tr1 ++ tr2 ++ tr3 ++ tr4)
        | (.ok _, tr4) =>
          match page with
          | none => runCatch cfg env st1 name nullPageError (tr1 ++ tr2 ++ tr3 ++ tr4)
          | some p =>
            match env.screenshotResult p with
            | .error e =>
              runCatch cfg env st1 name e (tr1 ++ tr2 ++ tr3 ++ tr4 ++ [Eff.screenshot p])
            | .ok data =>
              (.ok ⟨false, result.content ++ [ContentItem.image data "image/png"]⟩, st1,
               tr1 ++ tr2 ++ tr3 ++ tr4 ++ [Eff.screenshot p])

/-- The `data-label` values assigned by `markPage` in `markPageScript`
(lines 123-124): `index.toString()` over the filtered items, so labels run
`"0"`, `"1"`, ... from zero. -/
def markPageAssignedLabels (numItems : Nat) : List String :=
  (List.range numItems).map (fun i => toString i)

/-- Modelled from the spec: `handleNavigate` is specified as "prefixing
https:// if no scheme given"; a generic URI scheme is a leading ASCII
letter followed by letters, digits, `+`, `-` or `.`, ending at `:`. -/
def isSchemeChar (c : Char) : Bool :=
  c.isAlphanum || c = '+' || c = '-' || c = '.'

/-- Modelled from the spec: whether a URL string carries a scheme. -/
def urlCarriesScheme (u : String) : Bool :=
  match u.toList with
  | [] => false
  | c :: rest => c.isAlpha && urlSchemeTail rest
where
  urlSchemeTail : List Char → Bool
  | [] => false
  | c :: t => if c = ':' then true else if isSchemeChar c then urlSchemeTail t else false

/-! ## Concrete configurations and environments used by witnesses -/

/-- Local-mode configuration with the default local base URL. -/
def cfgLocal : Config := ⟨true, none, "http://localhost:3000", 0⟩

/-- Cloud-mode configuration with an API key. -/
def cfgCloud : Config := ⟨false, some "k", "https://api.steel.dev", 0⟩

/-- An environment in which every external call succeeds. -/
def envAllOk : Env where
  createResult := fun _ => .ok ⟨"s1", "wsurl", SessionStatus.live⟩
  connectResult := fun _ => .ok 1
  pagesOf := fun b => [b]
  retrieveResult := fun _ => .ok SessionStatus.live
  releaseResult := fun _ => .ok ()
  closeResult := fun _ => .ok ()
  evalOnNewDoc := fun _ => .ok ()
  evalMarkPage := fun _ => .ok ()
  setViewport := fun _ => .ok ()
  goto := fun _ _ => .ok ()
  waitForSelector := fun _ _ => .ok ()
  anchorTargetBlank := fun _ _ => .ok none
  clickSel := fun _ _ => .ok ()
  setValue := fun _ _ _ => .ok ()
  appendValue := fun _ _ _ => .ok ()
  scrollByPixels := fun _ _ => .ok ()
  pressKey := fun _ _ => .ok ()
  goBackResult := fun _ => .ok true
  evalUnmark := fun _ => .ok ()
  screenshotResult := fun _ => .ok "imgbytes"
  now := 42

/-! ## Shared structural lemmas -/

/-- The state `cleanup` leaves behind: all four fields reset. -/
theorem cleanupRun_fst (cfg : Config) (env : Env) (st : MgrState) :
    (cleanupRun cfg env st).1 = ⟨none, none, none, false, st.createCount⟩ := rfl

/-- A successful `createNewSession` installed the session id answered by the
remote service, connected a browser, and took its first page. -/
theorem createNewSession_ok_shape {cfg : Config} {env : Env} {st st2 : MgrState}
    {tr : List Eff} (h : createNewSession cfg env st = (.ok (), st2, tr)) :
    ∃ info ep b, env.createResult st.createCount = .ok info ∧
      wsEndpoint cfg info.id = .ok ep ∧
      env.connectResult ep = .ok b ∧
      st2.sessionId = some info.id ∧
      st2.browser = some b ∧
      st2.page = (env.pagesOf b).head? ∧
      st2.createCount = st.createCount + 1 := by
  unfold createNewSession createSteelSession at h
  cases hbr : st.browser <;> simp only [hbr] at h
  case none =>
    cases hc : env.createResult st.createCount <;> simp only [hc] at h
    case error => simp at h
    case ok info =>
      cases hw : wsEndpoint cfg info.id <;> simp only [hw] at h
      case error => simp at h
      case ok ep =>
        cases hcon : env.connectResult ep <;> simp only [hcon] at h
        case error => simp at h
        case ok b =>
          cases hsp : setupPage env
              ⟨some info.id, some b, (env.pagesOf b).head?, st.isInitialized,
                st.createCount + 1⟩ with
          | mk r tr5 =>
            cases r <;> simp only [hsp] at h
            case error => simp at h
            case ok =>
              simp only [Prod.mk.injEq] at h
              obtain ⟨-, hst, -⟩ := h
              refine ⟨info, ep, b, rfl, hw, hcon, ?_, ?_, ?_, ?_⟩ <;> simp [← hst]
  case some b0 =>
    rw [cleanupRun_fst] at h
    cases hc : env.createResult st.createCount <;> simp only [hc] at h
    case error => simp at h
    case ok info =>
      cases hw : wsEndpoint cfg info.id <;> simp only [hw] at h
      case error => simp at h
      case ok ep =>
        cases hcon : env.connectResult ep <;> simp only [hcon] at h
        case error => simp at h
        case ok b =>
          cases hsp : setupPage env
              ⟨some info.id, some b, (env.pagesOf b).head?, false,
                st.createCount + 1⟩ with
          | mk r tr5 =>
            cases r <;> simp only [hsp] at h
            case error => simp at h
            case ok =>
              simp only [Prod.mk.injEq] at h
              obtain ⟨-, hst, -⟩ := h
              refine ⟨info, ep, b, rfl, hw, hcon, ?_, ?_, ?_, ?_⟩ <;> simp [← hst]

/-! ## C3: initialize idempotence and ensureSession stability -/

/-- C3: `initialize` is idempotent — when the manager is already initialized
it returns the stored page handle with the state untouched and no external
calls — and a successful `ensureSession` followed directly by another
`ensureSession` returns the same page handle backed by the same (unchanged)
manager state, with an empty effect trace for the second call, so no
duplicate session is created and both handles are backed by the same
session id. -/
theorem claim_C3_initialize_idempotent_ensure_stable :
    ∀ (cfg : Config) (env : Env) (st : MgrState),
      (st.isInitialized = true → initializeSession cfg env st = (.ok st.page, st, [])) ∧
      (∀ p st1 tr, ensureSession cfg env st = (.ok p, st1, tr) →
        p = st1.page ∧ ensureSession cfg env st1 = (.ok st1.page, st1, [])) := by
  intro cfg env st
  constructor
  · intro hinit
    unfold initializeSession
    simp [hinit]
  · intro p st1 tr h
    unfold ensureSession at h ⊢
    cases hsid : st.sessionId <;> simp only [hsid] at h
    case some s =>
      simp only [Prod.mk.injEq, Except.ok.injEq] at h
      obtain ⟨hp, hst, -⟩ := h
      subst hst
      simp [hsid, hp]
    case none =>
      unfold initializeSession at h ⊢
      cases hini : st.isInitialized <;>
        simp only [hini, eq_self_iff_true, Bool.false_eq_true, if_true, if_false] at h
      case true =>
        simp only [Prod.mk.injEq, Except.ok.injEq] at h
        obtain ⟨hp, hst, -⟩ := h
        subst hst
        simp [hsid, hini, hp]
      case false =>
        rcases hcs : createNewSession cfg env st with ⟨r, stc, trc⟩
        cases r <;> simp only [hcs] at h
        case error => simp at h
        case ok =>
          obtain ⟨info, ep, b, hinfo, hep, hconn, hsid2, hbr2, hpage2, hcc⟩ :=
            createNewSession_ok_shape hcs
          simp only [Prod.mk.injEq, Except.ok.injEq] at h
          obtain ⟨hp, hst1, -⟩ := h
          subst hst1
          constructor
          · exact hp.symm
          · simp [hsid2]

/-- C3 witness: concrete instances of both parts at an all-success
environment. -/
theorem claim_C3_witness :
    initializeSession cfgLocal envAllOk ⟨some "s1", some 1, some 1, true, 1⟩ =
      (.ok (some 1), ⟨some "s1", some 1, some 1, true, 1⟩, []) ∧
    ensureSession cfgLocal envAllOk
        ⟨some "s1", some 1, some 1, true, 1⟩ =
      (.ok (some 1), ⟨some "s1", some 1, some 1, true, 1⟩, []) := by
  have h1 := (claim_C3_initialize_idempotent_ensure_stable cfgLocal envAllOk
    ⟨some "s1", some 1, some 1, true, 1⟩).1 rfl
  have h2 := (claim_C3_initialize_idempotent_ensure_stable cfgLocal envAllOk
    freshState).2 (some 1) ⟨some "s1", some 1, some 1, true, 1⟩
    [Eff.createSession, Eff.connect "ws://localhost:3000/?sessionId=s1",
     Eff.evalOnNewDoc 1, Eff.evalMarkPage 1, Eff.setViewport 1, Eff.attachConsole 1] rfl
  exact ⟨h1, h2.2⟩

/-! ## C1: ensureSession and session status at acquisition -/

/-- Environment whose session-creation call reports status `failed`. -/
def envBadStatus : Env :=
  { envAllOk with createResult := fun _ => .ok ⟨"s1", "wsurl", SessionStatus.failed⟩ }

/-- C1 counterexample: starting from the fresh state, `ensureSession`
succeeds and returns a page handle for the newly created session `s1` even
though the creation response itself reported the session's status as
`failed` — the source never reads `session.status` — so the returned handle
is backed by a session that was not confirmed `live` at acquisition time. -/
theorem claim_C1_counterexample :
    (ensureSession cfgLocal envBadStatus freshState).1 = .ok (some 1) ∧
    (ensureSession cfgLocal envBadStatus freshState).2.1.sessionId = some "s1" ∧
    envBadStatus.createResult 0 = .ok ⟨"s1", "wsurl", SessionStatus.failed⟩ ∧
    SessionStatus.failed ≠ SessionStatus.live := by
  refine ⟨rfl, rfl, rfl, by decide⟩

/-- C1 (amended): a successful `ensureSession` returns the stored page
handle when a session id is already tracked (without touching the state),
and otherwise creates a fresh session and returns its first page; the
status reported by the creation call is never inspected, so the handle may
be backed by a session whose reported status was not `live`. -/
theorem claim_C1_ensureSession_amended :
    ∀ (cfg : Config) (env : Env) (st : MgrState),
      (∀ sid, st.sessionId = some sid → ensureSession cfg env st = (.ok st.page, st, [])) ∧
      (st.sessionId = none → st.isInitialized = false →
        ∀ p st1 tr, ensureSession cfg env st = (.ok p, st1, tr) →
          ∃ info, env.createResult st.createCount = .ok info ∧
            st1.sessionId = some info.id ∧ p = st1.page ∧ st1.isInitialized = true) := by
  intro cfg env st
  constructor
  · intro sid hsid
    unfold ensureSession
    simp [hsid]
  · intro hsid hini p st1 tr h
    unfold ensureSession initializeSession at h
    simp only [hsid, hini, Bool.false_eq_true, if_false] at h
    rcases hcs : createNewSession cfg env st with ⟨r, stc, trc⟩
    cases r <;> simp only [hcs] at h
    case error => simp at h
    case ok =>
      obtain ⟨info, ep, b, hinfo, hep, hconn, hsid2, hbr2, hpage2, hcc⟩ :=
        createNewSession_ok_shape hcs
      simp only [Prod.mk.injEq, Except.ok.injEq] at h
      obtain ⟨hp, hst1, -⟩ := h
      subst hst1
      exact ⟨info, hinfo, hsid2, hp.symm, rfl⟩

/-- C1 witness for the amended theorem, at the counterexample environment:
the created session's id is installed and its page returned. -/
theorem claim_C1_witness :
    ∃ info, envBadStatus.createResult freshState.createCount = .ok info ∧
      (⟨some "s1", some 1, some 1, true, 1⟩ : MgrState).sessionId = some info.id ∧
      (some 1 : Option Nat) = (⟨some "s1", some 1, some 1, true, 1⟩ : MgrState).page := by
  have h := (claim_C1_ensureSession_amended cfgLocal envBadStatus freshState).2 rfl rfl
    (some 1) ⟨some "s1", some 1, some 1, true, 1⟩
    [Eff.createSession, Eff.connect "ws://localhost:3000/?sessionId=s1",
     Eff.evalOnNewDoc 1, Eff.evalMarkPage 1, Eff.setViewport 1, Eff.attachConsole 1] rfl
  obtain ⟨info, h1, h2, h3, -⟩ := h
  exact ⟨info, h1, h2, h3⟩

/-! ## C2: handleError classification and recovery -/

/-- C2: for every error passed to `handleError` while a session is tracked
(the claim's "the session" presupposes one): the manager first retrieves
that session's status from the remote service; a status other than `live`
triggers recreation and `true`; a failed retrieval conservatively triggers
recreation and `true`; a confirmed `live` status yields `false` with no
state change; and after a not-live report with a successful recreation that
installed a different id, a subsequent `ensureSession` returns a handle
bound to that new, different session id. -/
theorem claim_C2_handleError_spec :
    ∀ (cfg : Config) (env : Env) (st : MgrState) (sid : String) (e : JsError),
      st.sessionId = some sid →
      ((handleError cfg env st e).2.2.head? = some (Eff.retrieve sid)) ∧
      (∀ status st2 tr2, env.retrieveResult sid = .ok status →
        status ≠ SessionStatus.live →
        createNewSession cfg env st = (.ok (), st2, tr2) →
        handleError cfg env st e = (.ok true, st2, Eff.retrieve sid :: tr2)) ∧
      (∀ e2 st2 tr2, env.retrieveResult sid = .error e2 →
        createNewSession cfg env st = (.ok (), st2, tr2) →
        handleError cfg env st e = (.ok true, st2, Eff.retrieve sid :: tr2)) ∧
      (env.retrieveResult sid = .ok SessionStatus.live →
        handleError cfg env st e = (.ok false, st, [Eff.retrieve sid])) ∧
      (∀ status st2 tr2 info, env.retrieveResult sid = .ok status →
        status ≠ SessionStatus.live →
        createNewSession cfg env st = (.ok (), st2, tr2) →
        env.createResult st.createCount = .ok info →
        info.id ≠ sid →
        st2.sessionId = some info.id ∧ st2.sessionId ≠ some sid ∧
        ensureSession cfg env st2 = (.ok st2.page, st2, [])) := by
  intro cfg env st sid e hsid
  refine ⟨?_, ?_, ?_, ?_, ?_⟩
  · unfold handleError
    simp only [hsid]
    cases hr : env.retrieveResult sid
    case error e2 =>
      rcases hcs : createNewSession cfg env st with ⟨r, st2, tr2⟩
      cases r <;> simp [hr, hcs]
    case ok status =>
      by_cases hlive : status = SessionStatus.live
      · subst hlive
        simp [hr]
      · rcases hcs : createNewSession cfg env st with ⟨r, st2, tr2⟩
        rcases r with e1 | u
        · rcases hcs2 : createNewSession cfg env st2 with ⟨r2, st3, tr3⟩
          rcases r2 with e3 | u2 <;> simp [hr, hcs, hcs2, hlive]
        · simp [hr, hcs, hlive]
  · intro status st2 tr2 hr hlive hcs
    unfold handleError
    simp [hsid, hr, hlive, hcs]
  · intro e2 st2 tr2 hr hcs
    unfold handleError
    simp [hsid, hr, hcs]
  · intro hr
    unfold handleError
    simp [hsid, hr]
  · intro status st2 tr2 info hr hlive hcs hinfo hne
    obtain ⟨info2, ep, b, hinfo2, hep, hconn, hsid2, hbr2, hpage2, hcc⟩ :=
      createNewSession_ok_shape hcs
    rw [hinfo] at hinfo2
    injection hinfo2 with hinfo2
    subst hinfo2
    refine ⟨hsid2, ?_, ?_⟩
    · rw [hsid2]
      simp [hne]
    · unfold ensureSession
      simp [hsid2]

/-- Environment for the C2 witness: session `s0` is reported `released`,
`sLive` is reported `live`, creation mints fresh ids `n0`, `n1`, ... -/
def envC2 : Env := { envAllOk with
  createResult := fun n => .ok ⟨"n" ++ toString n, "w", SessionStatus.live⟩
  retrieveResult := fun sid =>
    if sid = "s0" then .ok SessionStatus.released
    else if sid = "sLive" then .ok SessionStatus.live
    else .error ⟨"retrieve failed", ""⟩
  connectResult := fun _ => .ok 5 }

/-- C2 witness: with tracked session `s0` reported `released`, `handleError`
retrieves the status, recreates (new id `n0`, old one released) and returns
`true`, after which `ensureSession` hands out the new session's page; with
tracked session `sLive` reported `live`, it returns `false` untouched. -/
theorem claim_C2_witness :
    handleError cfgCloud envC2 ⟨some "s0", some 2, some 2, true, 0⟩ ⟨"boom", ""⟩ =
      (.ok true, ⟨some "n0", some 5, some 5, false, 1⟩,
        Eff.retrieve "s0" ::
          [Eff.release "s0", Eff.closeBrowser 2, Eff.createSession,
           Eff.connect "wss://connect.steel.dev?sessionId=n0&apiKey=k",
           Eff.evalOnNewDoc 5, Eff.evalMarkPage 5, Eff.setViewport 5,
           Eff.attachConsole 5]) ∧
    handleError cfgCloud envC2 ⟨some "sLive", some 2, some 2, true, 0⟩ ⟨"boom", ""⟩ =
      (.ok false, ⟨some "sLive", some 2, some 2, true, 0⟩, [Eff.retrieve "sLive"]) ∧
    some "n0" ≠ some "s0" ∧
    ensureSession cfgCloud envC2 ⟨some "n0", some 5, some 5, false, 1⟩ =
      (.ok (some 5), ⟨some "n0", some 5, some 5, false, 1⟩, []) := by
  have h := claim_C2_handleError_spec cfgCloud envC2
    ⟨some "s0", some 2, some 2, true, 0⟩ "s0" ⟨"boom", ""⟩ rfl
  have hlive := claim_C2_handleError_spec cfgCloud envC2
    ⟨some "sLive", some 2, some 2, true, 0⟩ "sLive" ⟨"boom", ""⟩ rfl
  refine ⟨?_, hlive.2.2.2.1 rfl, ?_, ?_⟩
  · exact h.2.1 SessionStatus.released
      ⟨some "n0", some 5, some 5, false, 1⟩
      [Eff.release "s0", Eff.closeBrowser 2, Eff.createSession,
       Eff.connect "wss://connect.steel.dev?sessionId=n0&apiKey=k",
       Eff.evalOnNewDoc 5, Eff.evalMarkPage 5, Eff.setViewport 5,
       Eff.attachConsole 5] rfl (by decide) rfl
  · simp
  · have h5 := h.2.2.2.2 SessionStatus.released
      ⟨some "n0", some 5, some 5, false, 1⟩
      [Eff.release "s0", Eff.closeBrowser 2, Eff.createSession,
       Eff.connect "wss://connect.steel.dev?sessionId=n0&apiKey=k",
       Eff.evalOnNewDoc 5, Eff.evalMarkPage 5, Eff.setViewport 5,
       Eff.attachConsole 5] ⟨"n0", "w", SessionStatus.live⟩ rfl (by decide) rfl rfl
      (by decide)
    exact h5.2.2

/-! ## C7: cleanup behaviour -/

/-- Release effects of `cleanup`: present exactly when not in local mode
and a session id is tracked. -/
theorem cleanupRun_release_mem (cfg : Config) (env : Env) (st : MgrState) (sid : String) :
    Eff.release sid ∈ (cleanupRun cfg env st).2 ↔
      (cfg.steelLocal = false ∧ st.sessionId = some sid) := by
  unfold cleanupRun
  cases hl : cfg.steelLocal <;> cases hs : st.sessionId <;>
    cases hb : st.browser <;> simp_all <;> exact eq_comm

/-- Close effects of `cleanup`: present exactly when a browser is tracked. -/
theorem cleanupRun_close_mem (cfg : Config) (env : Env) (st : MgrState) (b : Nat) :
    Eff.closeBrowser b ∈ (cleanupRun cfg env st).2 ↔ st.browser = some b := by
  unfold cleanupRun
  cases hl : cfg.steelLocal <;> cases hs : st.sessionId <;>
    cases hb : st.browser <;> simp_all <;> exact eq_comm

/-- C7: `cleanup` releases the remote session exactly when not in local
mode and a session id is tracked, closes the browser transport exactly when
one is tracked, and resets all four internal fields to the uninitialized
state; and its outcome does not depend on the environment's answers, so in
particular a failing remote release call changes nothing. -/
theorem claim_C7_cleanup_spec :
    ∀ (cfg : Config) (env : Env) (st : MgrState),
      (cleanupRun cfg env st).1 = ⟨none, none, none, false, st.createCount⟩ ∧
      (∀ sid, Eff.release sid ∈ (cleanupRun cfg env st).2 ↔
        (cfg.steelLocal = false ∧ st.sessionId = some sid)) ∧
      (∀ b, Eff.closeBrowser b ∈ (cleanupRun cfg env st).2 ↔ st.browser = some b) ∧
      (∀ env2, cleanupRun cfg env st = cleanupRun cfg env2 st) := by
  intro cfg env st
  exact ⟨cleanupRun_fst cfg env st,
    fun sid => cleanupRun_release_mem cfg env st sid,
    fun b => cleanupRun_close_mem cfg env st b,
    fun env2 => rfl⟩

/-- Environment whose remote release call fails. -/
def envFailRelease : Env :=
  { envAllOk with releaseResult := fun _ => .error ⟨"release failed", ""⟩ }

/-- C7 witness: cloud mode, tracked session and browser, failing release
call — the session is still released (the call is made), the browser is
closed and the state is fully reset. -/
theorem claim_C7_witness :
    (cleanupRun cfgCloud envFailRelease ⟨some "s0", some 2, some 2, true, 3⟩).1 =
      ⟨none, none, none, false, 3⟩ ∧
    Eff.release "s0" ∈ (cleanupRun cfgCloud envFailRelease ⟨some "s0", some 2, some 2, true, 3⟩).2 ∧
    Eff.closeBrowser 2 ∈
      (cleanupRun cfgCloud envFailRelease ⟨some "s0", some 2, some 2, true, 3⟩).2 ∧
    envFailRelease.releaseResult "s0" = .error ⟨"release failed", ""⟩ := by
  have h := claim_C7_cleanup_spec cfgCloud envFailRelease ⟨some "s0", some 2, some 2, true, 3⟩
  exact ⟨h.1, (h.2.1 "s0").mpr ⟨rfl, rfl⟩, (h.2.2.1 2).mpr rfl, rfl⟩

/-! ## C4: single current session and release-on-supersession -/

/-- Script injection performs no session release. -/
theorem injectMarkPageScript_no_release (env : Env) (page : Option Nat) (sid : String) :
    Eff.release sid ∉ (injectMarkPageScript env page).2 := by
  unfold injectMarkPageScript
  cases page
  · simp
  case some p =>
    cases h1 : env.evalOnNewDoc p
    · simp [h1]
    · cases h2 : env.evalMarkPage p <;> simp [h1, h2]

/-- Page setup performs no session release. -/
theorem setupPage_no_release (env : Env) (st : MgrState) (sid : String) :
    Eff.release sid ∉ (setupPage env st).2 := by
  unfold setupPage
  cases hp : st.page
  · simp
  case some p =>
    have hni := injectMarkPageScript_no_release env (some p) sid
    rcases him : injectMarkPageScript env (some p) with ⟨r, tr⟩
    rw [him] at hni
    cases r
    · simpa [him] using hni
    · cases hv : env.setViewport p <;> simp_all [him]

/-- With no tracked browser, `createNewSession` performs no release at all,
whatever else happens. -/
theorem createNewSession_no_release_of_no_browser (cfg : Config) (env : Env)
    (st : MgrState) (sid : String) (hb : st.browser = none) :
    Eff.release sid ∉ (createNewSession cfg env st).2.2 := by
  unfold createNewSession createSteelSession
  simp only [hb]
  cases hc : env.createResult st.createCount
  · simp [hc]
  case ok info =>
    cases hw : wsEndpoint cfg info.id
    · simp [hc, hw]
    case ok ep =>
      cases hcon : env.connectResult ep
      · simp [hc, hw, hcon]
      case ok b =>
        have h5 := setupPage_no_release env
          ⟨some info.id, some b, (env.pagesOf b).head?, st.isInitialized,
            st.createCount + 1⟩ sid
        rcases hsp : setupPage env
            ⟨some info.id, some b, (env.pagesOf b).head?, st.isInitialized,
              st.createCount + 1⟩ with ⟨r, tr5⟩
        rw [hsp] at h5
        cases r <;> simp_all [hc, hw, hcon, hsp]

/-- With a tracked browser, cloud mode and a tracked session id, the very
first external effect of `createNewSession` is the release of the old
session (it runs `cleanup` before creating). -/
theorem createNewSession_release_head (cfg : Config) (env : Env) (st : MgrState)
    (b : Nat) (sid : String) (hb : st.browser = some b)
    (hl : cfg.steelLocal = false) (hs : st.sessionId = some sid) :
    (createNewSession cfg env st).2.2.head? = some (Eff.release sid) := by
  have hclean : (cleanupRun cfg env st).2 = [Eff.release sid, Eff.closeBrowser b] := by
    simp [cleanupRun, hl, hs, hb]
  unfold createNewSession createSteelSession
  simp only [hb, cleanupRun_fst, hclean]
  cases hc : env.createResult st.createCount
  · simp [hc]
  case ok info =>
    cases hw : wsEndpoint cfg info.id
    · simp [hc, hw]
    case ok ep =>
      cases hcon : env.connectResult ep
      · simp [hc, hw, hcon]
      case ok b2 =>
        rcases hsp : setupPage env
            ⟨some info.id, some b2, (env.pagesOf b2).head?, false,
              st.createCount + 1⟩ with ⟨r, tr5⟩
        cases r <;> simp_all [hc, hw, hcon, hsp]

/-- C4 (amended): the manager tracks at most one session id at a time
(`sessionId` is a single optional field, installed afresh by every
successful creation); when `createNewSession` supersedes a previous session
it releases it first exactly when a browser handle is present (cloud mode);
when no browser handle is present — reachable after a failed `connect` —
the previously tracked id is overwritten without any release call. -/
theorem claim_C4_at_most_one_session :
    ∀ (cfg : Config) (env : Env) (st : MgrState),
      (∀ b sid, st.browser = some b → cfg.steelLocal = false → st.sessionId = some sid →
        (createNewSession cfg env st).2.2.head? = some (Eff.release sid)) ∧
      (st.browser = none → ∀ sid, Eff.release sid ∉ (createNewSession cfg env st).2.2) ∧
      (∀ st2 tr, createNewSession cfg env st = (.ok (), st2, tr) →
        ∃ nid, st2.sessionId = some nid) := by
  intro cfg env st
  refine ⟨?_, ?_, ?_⟩
  · intro b sid hb hl hs
    exact createNewSession_release_head cfg env st b sid hb hl hs
  · intro hb sid
    exact createNewSession_no_release_of_no_browser cfg env st sid hb
  · intro st2 tr h
    obtain ⟨info, ep, b, hinfo, hep, hconn, hsid2, hbr2, hpage2, hcc⟩ :=
      createNewSession_ok_shape h
    exact ⟨info.id, hsid2⟩

/-- Environment for the C4 counterexample: the first created session `s0`
accepts no connection, the next one (`s1`) does. -/
def envC4 : Env := { envAllOk with
  createResult := fun n => .ok ⟨if n = 0 then "s0" else "s1", "w", SessionStatus.live⟩
  connectResult := fun ep =>
    if ep = "wss://connect.steel.dev?sessionId=s0&apiKey=k" then .error ⟨"connect failed", ""⟩
    else .ok 7 }

/-- C4 counterexample: after a session creation whose `connect` failed, the
manager tracks id `s0` with no browser handle (a reachable state, exhibited
by the first conjunct); creating a new session from that state succeeds and
installs `s1`, but issues no release call for the superseded `s0` — so
"creating a new session supersedes and releases any previously tracked one"
is false as stated. -/
theorem claim_C4_counterexample :
    initializeSession cfgCloud envC4 freshState =
      (.error ⟨"connect failed", ""⟩, ⟨some "s0", none, none, false, 1⟩,
        [Eff.createSession, Eff.connect "wss://connect.steel.dev?sessionId=s0&apiKey=k"]) ∧
    (createNewSession cfgCloud envC4 ⟨some "s0", none, none, false, 1⟩).1 = .ok () ∧
    (createNewSession cfgCloud envC4 ⟨some "s0", none, none, false, 1⟩).2.1.sessionId =
      some "s1" ∧
    Eff.release "s0" ∉
      (createNewSession cfgCloud envC4 ⟨some "s0", none, none, false, 1⟩).2.2 := by
  refine ⟨rfl, rfl, rfl, by decide⟩

/-- C4 witness for the amended theorem: with a browser handle present the
old session `s0` is released first, and a successful creation leaves
exactly one (fresh) tracked id. -/
theorem claim_C4_witness :
    (createNewSession cfgCloud envC2 ⟨some "s0", some 2, some 2, true, 0⟩).2.2.head? =
      some (Eff.release "s0") ∧
    Eff.release "s0" ∉
      (createNewSession cfgCloud envC4 ⟨some "s0", none, none, false, 1⟩).2.2 ∧
    (∃ nid, (⟨some "n0", some 5, some 5, false, 1⟩ : MgrState).sessionId = some nid) := by
  have h1 := claim_C4_at_most_one_session cfgCloud envC2 ⟨some "s0", some 2, some 2, true, 0⟩
  have h2 := claim_C4_at_most_one_session cfgCloud envC4 ⟨some "s0", none, none, false, 1⟩
  refine ⟨h1.1 2 "s0" rfl rfl rfl, h2.2.1 rfl "s0", ?_⟩
  exact h1.2.2 ⟨some "n0", some 5, some 5, false, 1⟩
    [Eff.release "s0", Eff.closeBrowser 2, Eff.createSession,
     Eff.connect "wss://connect.steel.dev?sessionId=n0&apiKey=k",
     Eff.evalOnNewDoc 5, Eff.evalMarkPage 5, Eff.setViewport 5, Eff.attachConsole 5] rfl

/-! ## C6: transport endpoint derivation -/

/-- A pattern that is a prefix is found at index 0. -/
theorem firstOccurrence_atFront {pat s : List Char}
    (h : pat.isPrefixOf s = true) : firstOccurrence pat s = some 0 := by
  cases s <;> simp [firstOccurrence, h]

/-- Replacing a pattern that is a prefix substitutes it at the front. -/
theorem jsReplaceFirst_toList_front {s pat rep : String}
    (h : pat.toList.isPrefixOf s.toList = true) :
    (jsReplaceFirst s pat rep).toList = rep.toList ++ s.toList.drop pat.toList.length := by
  unfold jsReplaceFirst
  rw [firstOccurrence_atFront h]
  simp [String.toList]

/-- The replacement becomes the new prefix. -/
theorem jsStartsWith_replaceFirst {s pat rep : String}
    (h : jsStartsWith s pat = true) :
    jsStartsWith (jsReplaceFirst s pat rep) rep = true := by
  unfold jsStartsWith at h ⊢
  rw [List.isPrefixOf_iff_prefix] at h ⊢
  rw [jsReplaceFirst_toList_front (by rwa [List.isPrefixOf_iff_prefix])]
  exact List.prefix_append _ _

/-- A prefix of `a` is a prefix of `a ++ b`. -/
theorem jsStartsWith_append (a b pre : String)
    (h : jsStartsWith a pre = true) : jsStartsWith (a ++ b) pre = true := by
  unfold jsStartsWith at h ⊢
  rw [List.isPrefixOf_iff_prefix] at h ⊢
  have habl : (a ++ b).toList = a.toList ++ b.toList := by
    simp [String.toList, String.data_append]
  rw [habl]
  exact h.trans (List.prefix_append _ _)

/-- Lowercasing preserves a prefix that is already lowercase. -/
theorem jsStartsWith_toLower_of (base pre : String)
    (hfix : pre.toList.map Char.toLower = pre.toList)
    (h : jsStartsWith base pre = true) :
    jsStartsWith (jsToLower base) pre = true := by
  unfold jsStartsWith at h ⊢
  unfold jsToLower
  rw [List.isPrefixOf_iff_prefix] at h ⊢
  obtain ⟨t, ht⟩ := h
  have hl : (String.mk (base.toList.map Char.toLower)).toList =
      base.toList.map Char.toLower := rfl
  rw [hl, ← ht, List.map_append, hfix]
  exact List.prefix_append _ _

/-- A URL starting with `https://` does not lowercase to one starting with
`http://` (the fifth character is `s`, not `:`). -/
theorem not_http_of_https_toLower (base : String)
    (h : jsStartsWith base "https://" = true) :
    jsStartsWith (jsToLower base) "http://" = false := by
  unfold jsStartsWith at h ⊢
  unfold jsToLower
  rw [List.isPrefixOf_iff_prefix] at h
  obtain ⟨t, ht⟩ := h
  have hl : (String.mk (base.toList.map Char.toLower)).toList =
      base.toList.map Char.toLower := rfl
  rw [hl, ← ht, List.map_append]
  rfl

/-- Local-mode endpoint for an `http://` base URL. -/
theorem wsEndpoint_local_http (key : Option String) (gws : Rat) (base sid : String)
    (h : jsStartsWith base "http://" = true) :
    wsEndpoint ⟨true, key, base, gws⟩ sid =
      .ok (jsReplaceFirst base "http://" "ws://" ++ "/?sessionId=" ++ sid) := by
  have hlow := jsStartsWith_toLower_of base "http://" (by decide) h
  simp [wsEndpoint, hlow]

/-- Local-mode endpoint for an `https://` base URL. -/
theorem wsEndpoint_local_https (key : Option String) (gws : Rat) (base sid : String)
    (h : jsStartsWith base "https://" = true) :
    wsEndpoint ⟨true, key, base, gws⟩ sid =
      .ok (jsReplaceFirst base "https://" "wss://" ++ "/?sessionId=" ++ sid) := by
  have hlow := jsStartsWith_toLower_of base "https://" (by decide) h
  have hnot := not_http_of_https_toLower base h
  simp [wsEndpoint, hlow, hnot]

/-- C6: in local mode the endpoint is derived by rewriting the base URL's
scheme (`http://` to `ws://`, `https://` to `wss://`) and appending the
session id as a query parameter, so the default local base URL
`http://localhost:3000` yields an endpoint beginning `ws://`; in remote
mode the endpoint always begins `wss://` at the fixed host
`connect.steel.dev`, carrying the session id and — when the (mandatory,
nonempty) key is configured — the API key as query parameters. -/
theorem claim_C6_endpoint_derivation :
    ∀ (key : Option String) (gws : Rat) (base sid k : String),
      (jsStartsWith base "http://" = true →
        wsEndpoint ⟨true, key, base, gws⟩ sid =
          .ok (jsReplaceFirst base "http://" "ws://" ++ "/?sessionId=" ++ sid) ∧
        jsStartsWith (jsReplaceFirst base "http://" "ws://" ++ "/?sessionId=" ++ sid)
          "ws://" = true) ∧
      (jsStartsWith base "https://" = true →
        wsEndpoint ⟨true, key, base, gws⟩ sid =
          .ok (jsReplaceFirst base "https://" "wss://" ++ "/?sessionId=" ++ sid) ∧
        jsStartsWith (jsReplaceFirst base "https://" "wss://" ++ "/?sessionId=" ++ sid)
          "wss://" = true) ∧
      (wsEndpoint ⟨true, key, "http://localhost:3000", gws⟩ sid =
        .ok ("ws://localhost:3000" ++ "/?sessionId=" ++ sid)) ∧
      (k ≠ "" →
        wsEndpoint ⟨false, some k, base, gws⟩ sid =
          .ok ("wss://connect.steel.dev?sessionId=" ++ sid ++ ("&apiKey=" ++ k))) ∧
      (∀ (key2 : Option String) (ep : String),
        wsEndpoint ⟨false, key2, base, gws⟩ sid = .ok ep →
        jsStartsWith ep "wss://" = true) := by
  intro key gws base sid k
  refine ⟨?_, ?_, ?_, ?_, ?_⟩
  · intro h
    exact ⟨wsEndpoint_local_http key gws base sid h,
      jsStartsWith_append _ _ _ (jsStartsWith_append _ _ _ (jsStartsWith_replaceFirst h))⟩
  · intro h
    exact ⟨wsEndpoint_local_https key gws base sid h,
      jsStartsWith_append _ _ _ (jsStartsWith_append _ _ _ (jsStartsWith_replaceFirst h))⟩
  · have h1 := wsEndpoint_local_http key gws "http://localhost:3000" sid (by decide)
    rw [h1,
      (by decide : jsReplaceFirst "http://localhost:3000" "http://" "ws://" =
        "ws://localhost:3000")]
  · intro hk
    simp [wsEndpoint, hk]
  · intro key2 ep h
    unfold wsEndpoint at h
    simp at h
    subst h
    exact jsStartsWith_append _ _ _ (jsStartsWith_append _ _ _ (by decide))

/-- C6 witness: the default local base URL yields a `ws://` endpoint, and
cloud mode yields the fixed `wss://` endpoint with session id and key. -/
theorem claim_C6_witness :
    wsEndpoint ⟨true, none, "http://localhost:3000", 0⟩ "abc" =
      .ok "ws://localhost:3000/?sessionId=abc" ∧
    jsStartsWith "ws://localhost:3000/?sessionId=abc" "ws://" = true ∧
    wsEndpoint ⟨false, some "k", "https://api.steel.dev", 0⟩ "abc" =
      .ok "wss://connect.steel.dev?sessionId=abc&apiKey=k" ∧
    jsStartsWith "wss://connect.steel.dev?sessionId=abc&apiKey=k" "wss://" = true := by
  have h := claim_C6_endpoint_derivation none 0 "https://api.steel.dev" "abc" "k"
  have h1 := (claim_C6_endpoint_derivation none 0 "http://localhost:3000" "abc" "k").1
    (by decide)
  have e1 : (jsReplaceFirst "http://localhost:3000" "http://" "ws://" ++
      "/?sessionId=" ++ "abc" : String) = "ws://localhost:3000/?sessionId=abc" := by decide
  have h4 := h.2.2.2.1 (by decide)
  have e4 : ("wss://connect.steel.dev?sessionId=" ++ "abc" ++ ("&apiKey=" ++ "k") : String) =
      "wss://connect.steel.dev?sessionId=abc&apiKey=k" := by decide
  rw [e1] at h1
  rw [e4] at h4
  exact ⟨h1.1, by decide, h4, h.2.2.2.2 (some "k") _ h4⟩

/-! ## C8: navigate URL prefixing -/

/-- C8 counterexample: `ftp://example.com` carries a scheme, yet
`handleNavigate` does not load it unchanged — the source only tests for the
`http://` and `https://` prefixes, so it loads
`https://ftp://example.com`. -/
theorem claim_C8_counterexample :
    handleNavigate envAllOk (some 1) { url := some "ftp://example.com" } =
      (.ok (okText "Navigated to https://ftp://example.com"),
        [Eff.goto 1 "https://ftp://example.com"]) ∧
    urlCarriesScheme "ftp://example.com" = true := by
  exact ⟨rfl, by decide⟩

/-- C8 (amended): `handleNavigate` loads the given nonempty url unchanged
exactly when it starts with `http://` or `https://`, and otherwise loads it
with `https://` prepended — so urls carrying any other scheme (such as
`ftp://`) are also prefixed rather than loaded unchanged. -/
theorem claim_C8_navigate_prefix_policy :
    ∀ (env : Env) (p : Nat) (u : String), u ≠ "" →
      ((jsStartsWith u "http://" = true ∨ jsStartsWith u "https://" = true) →
        (handleNavigate env (some p) { url := some u }).2 = [Eff.goto p u] ∧
        (env.goto p u = .ok () →
          handleNavigate env (some p) { url := some u } =
            (.ok (okText ("Navigated to " ++ u)), [Eff.goto p u]))) ∧
      (jsStartsWith u "http://" = false → jsStartsWith u "https://" = false →
        (handleNavigate env (some p) { url := some u }).2 =
          [Eff.goto p ("https://" ++ u)] ∧
        (env.goto p ("https://" ++ u) = .ok () →
          handleNavigate env (some p) { url := some u } =
            (.ok (okText ("Navigated to " ++ ("https://" ++ u))),
              [Eff.goto p ("https://" ++ u)]))) := by
  intro env p u hu
  constructor
  · intro h
    constructor
    · unfold handleNavigate
      cases hg : env.goto p u <;> rcases h with h | h <;> simp [optStrFalsy, hu, h, hg]
    · intro hg
      unfold handleNavigate
      rcases h with h | h <;> simp [optStrFalsy, hu, h, hg]
  · intro h1 h2
    constructor
    · unfold handleNavigate
      cases hg : env.goto p ("https://" ++ u) <;> simp [optStrFalsy, hu, h1, h2, hg]
    · intro hg
      unfold handleNavigate
      simp [optStrFalsy, hu, h1, h2, hg]

/-- C8 witness: a bare host gets the `https://` prefix; an explicit
`http://` url is loaded unchanged. -/
theorem claim_C8_witness :
    handleNavigate envAllOk (some 1) { url := some "example.com" } =
      (.ok (okText ("Navigated to " ++ ("https://" ++ "example.com"))),
        [Eff.goto 1 ("https://" ++ "example.com")]) ∧
    handleNavigate envAllOk (some 1) { url := some "http://a.b" } =
      (.ok (okText ("Navigated to " ++ "http://a.b")), [Eff.goto 1 "http://a.b"]) := by
  have h1 := (claim_C8_navigate_prefix_policy envAllOk 1 "example.com" (by decide)).2
    (by decide) (by decide)
  have h2 := (claim_C8_navigate_prefix_policy envAllOk 1 "http://a.b" (by decide)).1
    (Or.inl (by decide))
  exact ⟨h1.2 rfl, h2.2 rfl⟩

/-! ## C9: wait argument validation -/

/-- C9: `handleWait` rejects a missing `seconds` or one outside `[0, 10]`
with an error result and an empty effect trace (no delay is invoked), and
for `seconds` within `[0, 10]` succeeds after a pure delay of exactly
`seconds * 1000` milliseconds. -/
theorem claim_C9_wait_validation :
    ∀ (env : Env) (page : Option Nat) (args : Args),
      (args.seconds = none → handleWait env page args = (.ok (errText waitRangeMsg), [])) ∧
      (∀ s, args.seconds = some s → (s < 0 ∨ 10 < s) →
        handleWait env page args = (.ok (errText waitRangeMsg), [])) ∧
      (∀ s, args.seconds = some s → 0 ≤ s → s ≤ 10 →
        handleWait env page args =
          (.ok (okText ("Waited " ++ toString s ++ " second(s).")), [Eff.sleep (s * 1000)])) := by
  intro env page args
  refine ⟨?_, ?_, ?_⟩
  · intro hs
    unfold handleWait
    rw [hs]
  · intro s hs h
    unfold handleWait
    rw [hs]
    rcases h with h | h <;> simp [h]
  · intro s hs h0 h10
    unfold handleWait
    rw [hs]
    simp [not_lt.mpr h0, not_lt.mpr h10]

/-- C9 witness: `seconds = 15` yields the range error with no sleep effect;
`seconds = 3` sleeps 3000 milliseconds and reports success. -/
theorem claim_C9_witness :
    handleWait envAllOk (some 1) { seconds := some 15 } =
      (.ok (errText waitRangeMsg), []) ∧
    handleWait envAllOk (some 1) { seconds := some 3 } =
      (.ok (okText ("Waited " ++ toString (3 : Rat) ++ " second(s).")),
        [Eff.sleep 3000]) := by
  have h1 := (claim_C9_wait_validation envAllOk (some 1) { seconds := some 15 }).2.1
    15 rfl (Or.inr (by norm_num))
  have h2 := (claim_C9_wait_validation envAllOk (some 1) { seconds := some 3 }).2.2
    3 rfl (by norm_num) (by norm_num)
  rw [(by norm_num : (3 * 1000 : Rat) = 3000)] at h2
  exact ⟨h1, h2⟩

/-! ## C10: the falsy label 0 -/

/-- C10: `handleClick` and `handleType` use JavaScript falsiness for their
`label` argument, so `label = 0` is treated as missing and yields the
missing-parameter validation error (and `handleType` likewise rejects an
empty `text`), while the annotation script assigns `data-label` values
starting at `"0"` — the element labeled 0 can never be clicked or typed
into through these tools. -/
theorem claim_C10_label_zero_unreachable :
    ∀ (env : Env) (page : Option Nat) (args : Args),
      (args.label = some 0 →
        handleClick env page args =
          (.ok (errText "Label parameter is required for clicking elements"), [])) ∧
      (args.label = some 0 →
        handleType env page args =
          (.ok (errText "Both label and text parameters are required for typing"), [])) ∧
      (args.text = some "" →
        handleType env page args =
          (.ok (errText "Both label and text parameters are required for typing"), [])) ∧
      (∀ n, 0 < n → (markPageAssignedLabels n).head? = some "0") := by
  intro env page args
  refine ⟨?_, ?_, ?_, ?_⟩
  · intro hl
    unfold handleClick
    simp [optIntFalsy, hl]
  · intro hl
    unfold handleType
    simp [optIntFalsy, hl]
  · intro ht
    unfold handleType
    simp [optStrFalsy, ht]
  · intro n hn
    cases n with
    | zero => omega
    | succ m =>
      simp [markPageAssignedLabels, List.range_succ_eq_map]
      rfl

/-- C10 witness: concrete calls with `label = 0` and with empty `text`, and
the first assigned annotation label for a three-item page is `"0"`. -/
theorem claim_C10_witness :
    handleClick envAllOk (some 1) { label := some 0 } =
      (.ok (errText "Label parameter is required for clicking elements"), []) ∧
    handleType envAllOk (some 1) { label := some 0, text := some "x" } =
      (.ok (errText "Both label and text parameters are required for typing"), []) ∧
    handleType envAllOk (some 1) { label := some 5, text := some "" } =
      (.ok (errText "Both label and text parameters are required for typing"), []) ∧
    (markPageAssignedLabels 3).head? = some "0" := by
  have h1 := claim_C10_label_zero_unreachable envAllOk (some 1) { label := some 0 }
  have h2 := claim_C10_label_zero_unreachable envAllOk (some 1)
    { label := some 0, text := some "x" }
  have h3 := claim_C10_label_zero_unreachable envAllOk (some 1)
    { label := some 5, text := some "" }
  exact ⟨h1.1 rfl, h2.2.1 rfl, h3.2.2.1 rfl, h1.2.2.2 3 (by norm_num)⟩

/-! ## C5: dispatcher screenshot augmentation -/


/-- Results of `handleNavigate` carry a single text item. -/
theorem handleNavigate_ok_single_text {env : Env} {page : Option Nat} {args : Args}
    {r : CallToolResult} {tr : List Eff}
    (h : handleNavigate env page args = (.ok r, tr)) :
    ∃ b m, r = ⟨b, [ContentItem.text m]⟩ := by
  unfold handleNavigate at h
  repeat' (first | split at h | simp only [] at h)
  all_goals first
    | (simp only [Prod.mk.injEq, Except.ok.injEq] at h
       exact ⟨_, _, h.1.symm⟩)
    | simp at h

/-- Results of `handleSearch` carry a single text item. -/
theorem handleSearch_ok_single_text {env : Env} {page : Option Nat} {args : Args}
    {r : CallToolResult} {tr : List Eff}
    (h : handleSearch env page args = (.ok r, tr)) :
    ∃ b m, r = ⟨b, [ContentItem.text m]⟩ := by
  unfold handleSearch at h
  repeat' (first | split at h | simp only [] at h)
  all_goals first
    | (simp only [Prod.mk.injEq, Except.ok.injEq] at h
       exact ⟨_, _, h.1.symm⟩)
    | simp at h

/-- Results of `handleClick` carry a single text item. -/
theorem handleClick_ok_single_text {env : Env} {page : Option Nat} {args : Args}
    {r : CallToolResult} {tr : List Eff}
    (h : handleClick env page args = (.ok r, tr)) :
    ∃ b m, r = ⟨b, [ContentItem.text m]⟩ := by
  unfold handleClick at h
  repeat' (first | split at h | simp only [] at h)
  all_goals first
    | (simp only [Prod.mk.injEq, Except.ok.injEq] at h
       exact ⟨_, _, h.1.symm⟩)
    | simp at h

/-- Results of `handleType` carry a single text item. -/
theorem handleType_ok_single_text {env : Env} {page : Option Nat} {args : Args}
    {r : CallToolResult} {tr : List Eff}
    (h : handleType env page args = (.ok r, tr)) :
    ∃ b m, r = ⟨b, [ContentItem.text m]⟩ := by
  unfold handleType at h
  repeat' (first | split at h | simp only [] at h)
  all_goals first
    | (simp only [Prod.mk.injEq, Except.ok.injEq] at h
       exact ⟨_, _, h.1.symm⟩)
    | simp at h

/-- Results of `handleScrollDown` carry a single text item. -/
theorem handleScrollDown_ok_single_text {env : Env} {page : Option Nat} {args : Args}
    {r : CallToolResult} {tr : List Eff}
    (h : handleScrollDown env page args = (.ok r, tr)) :
    ∃ b m, r = ⟨b, [ContentItem.text m]⟩ := by
  unfold handleScrollDown at h
  repeat' (first | split at h | simp only [] at h)
  all_goals first
    | (simp only [Prod.mk.injEq, Except.ok.injEq] at h
       exact ⟨_, _, h.1.symm⟩)
    | simp at h

/-- Results of `handleScrollUp` carry a single text item. -/
theorem handleScrollUp_ok_single_text {env : Env} {page : Option Nat} {args : Args}
    {r : CallToolResult} {tr : List Eff}
    (h : handleScrollUp env page args = (.ok r, tr)) :
    ∃ b m, r = ⟨b, [ContentItem.text m]⟩ := by
  unfold handleScrollUp at h
  repeat' (first | split at h | simp only [] at h)
  all_goals first
    | (simp only [Prod.mk.injEq, Except.ok.injEq] at h
       exact ⟨_, _, h.1.symm⟩)
    | simp at h

/-- Results of `handleGoBack` carry a single text item. -/
theorem handleGoBack_ok_single_text {env : Env} {page : Option Nat}
    {r : CallToolResult} {tr : List Eff}
    (h : handleGoBack env page = (.ok r, tr)) :
    ∃ b m, r = ⟨b, [ContentItem.text m]⟩ := by
  unfold handleGoBack at h
  repeat' (first | split at h | simp only [] at h)
  all_goals first
    | (simp only [Prod.mk.injEq, Except.ok.injEq] at h
       exact ⟨_, _, h.1.symm⟩)
    | simp at h

/-- Results of `handleWait` carry a single text item. -/
theorem handleWait_ok_single_text {env : Env} {page : Option Nat} {args : Args}
    {r : CallToolResult} {tr : List Eff}
    (h : handleWait env page args = (.ok r, tr)) :
    ∃ b m, r = ⟨b, [ContentItem.text m]⟩ := by
  unfold handleWait at h
  repeat' (first | split at h | simp only [] at h)
  all_goals first
    | (simp only [Prod.mk.injEq, Except.ok.injEq] at h
       exact ⟨_, _, h.1.symm⟩)
    | simp at h

/-- Results of `handleSaveUnmarkedScreenshot` carry a single text item. -/
theorem handleSaveUnmarkedScreenshot_ok_single_text {env : Env} {page : Option Nat}
    {args : Args} {r : CallToolResult} {tr : List Eff}
    (h : handleSaveUnmarkedScreenshot env page args = (.ok r, tr)) :
    ∃ b m, r = ⟨b, [ContentItem.text m]⟩ := by
  unfold handleSaveUnmarkedScreenshot at h
  repeat' (first | split at h | simp only [] at h)
  all_goals first
    | (simp only [Prod.mk.injEq, Except.ok.injEq] at h
       exact ⟨_, _, h.1.symm⟩)
    | simp at h

/-- Every result a handler returns without throwing carries exactly one
text content item. -/
theorem dispatchHandler_ok_single_text (env : Env) (name : String) (page : Option Nat)
    (args : Args) (r : CallToolResult) (tr : List Eff)
    (h : dispatchHandler env name page args = (.ok r, tr)) :
    ∃ b m, r = ⟨b, [ContentItem.text m]⟩ := by
  unfold dispatchHandler at h
  repeat' split at h
  all_goals first
    | exact handleNavigate_ok_single_text h
    | exact handleSearch_ok_single_text h
    | exact handleClick_ok_single_text h
    | exact handleType_ok_single_text h
    | exact handleScrollDown_ok_single_text h
    | exact handleScrollUp_ok_single_text h
    | exact handleGoBack_ok_single_text h
    | exact handleWait_ok_single_text h
    | exact handleSaveUnmarkedScreenshot_ok_single_text h
    | (simp only [Prod.mk.injEq, Except.ok.injEq] at h
       exact ⟨_, _, h.1.symm⟩)

/-- C5: for every tool call in which the session was acquired and the
handler returned a result without throwing: an error result is returned
exactly as the handler produced it, with no further effects (no global
wait, no re-annotation, no screenshot — the trace is exactly the
acquisition trace plus the handler trace); a non-error result is augmented
with exactly one trailing image attachment appended after the handler's
single text item, leaving the manager state untouched. -/
theorem claim_C5_dispatcher_screenshot :
    ∀ (cfg : Config) (env : Env) (st : MgrState) (name : String) (args : Args)
      (page : Option Nat) (st1 : MgrState) (tr1 : List Eff)
      (hres : CallToolResult) (tr2 : List Eff),
      ensureSession cfg env st = (.ok page, st1, tr1) →
      dispatchHandler env name page args = (.ok hres, tr2) →
      (hres.isError = true →
        handleToolCall cfg env st name args = (.ok hres, st1, tr1 ++ tr2)) ∧
      (∀ p data trI, hres.isError = false → page = some p →
        injectMarkPageScript env st1.page = (.ok (), trI) →
        env.screenshotResult p = .ok data →
        ∃ m, hres = ⟨false, [ContentItem.text m]⟩ ∧
          (handleToolCall cfg env st name args).1 =
            .ok ⟨false, [ContentItem.text m, ContentItem.image data "image/png"]⟩ ∧
          (handleToolCall cfg env st name args).2.1 = st1) := by
  intro cfg env st name args page st1 tr1 hres tr2 hens hdisp
  constructor
  · intro herr
    unfold handleToolCall
    rw [hens]
    simp only []
    rw [hdisp]
    simp [herr]
  · intro p data trI hok hp hinj hshot
    subst hp
    obtain ⟨b, m, hbm⟩ := dispatchHandler_ok_single_text env name (some p) args hres tr2 hdisp
    have hb : b = false := by
      rw [hbm] at hok
      simpa using hok
    subst hb
    refine ⟨m, hbm, ?_, ?_⟩ <;>
    · unfold handleToolCall
      rw [hens]
      simp only []
      rw [hdisp]
      simp [hok, hinj, hshot, hbm]

/-- C5 witness: a `wait` call with invalid arguments is returned as-is with
no post-processing effects; a successful `navigate` call's result gains
exactly one trailing image item after its text item. -/
theorem claim_C5_witness :
    handleToolCall cfgLocal envAllOk ⟨some "s1", some 1, some 1, true, 1⟩ "wait"
        { seconds := some 15 } =
      (.ok (errText waitRangeMsg), ⟨some "s1", some 1, some 1, true, 1⟩, [] ++ []) ∧
    (handleToolCall cfgLocal envAllOk ⟨some "s1", some 1, some 1, true, 1⟩ "navigate"
        { url := some "example.com" }).1 =
      .ok ⟨false, [ContentItem.text "Navigated to https://example.com",
        ContentItem.image "imgbytes" "image/png"]⟩ := by
  have hens : ensureSession cfgLocal envAllOk ⟨some "s1", some 1, some 1, true, 1⟩ =
      (.ok (some 1), ⟨some "s1", some 1, some 1, true, 1⟩, []) := rfl
  have h1 := (claim_C5_dispatcher_screenshot cfgLocal envAllOk
      ⟨some "s1", some 1, some 1, true, 1⟩ "wait" { seconds := some 15 }
      (some 1) ⟨some "s1", some 1, some 1, true, 1⟩ [] (errText waitRangeMsg) []
      hens rfl).1 rfl
  have h2 := (claim_C5_dispatcher_screenshot cfgLocal envAllOk
      ⟨some "s1", some 1, some 1, true, 1⟩ "navigate" { url := some "example.com" }
      (some 1) ⟨some "s1", some 1, some 1, true, 1⟩ []
      (okText "Navigated to https://example.com") [Eff.goto 1 "https://example.com"]
      hens rfl).2 1 "imgbytes" [Eff.evalOnNewDoc 1, Eff.evalMarkPage 1]
      rfl rfl rfl rfl
  obtain ⟨m, hm, hr, -⟩ := h2
  have hm2 : m = "Navigated to https://example.com" := by
    have := hm
    simp [okText] at this
    exact this.symm
  rw [hm2] at hr
  exact ⟨h1, hr⟩
